import Mathlib

/-!
# Verification of the badge validator/formatter (src/index.ts)

Shallow embedding of the circular-mask generator, the circularity validator,
the RGB→HSL mood classifier and the validation orchestrator from
`src/index.ts`, plus the per-pixel mask generator from `src/unnamed/part_000`.

Modelling conventions:
* Pixel buffers are `List ℕ` of bytes, length `width * height * 4`; a JS
  typed-array write at an in-range integer index is `List.set` (which, like
  the typed array, ignores out-of-range indices).
* JS numbers are modelled by exact arithmetic: `ℚ` for the HSL pipeline
  (which uses only field operations) and exact integer reasoning, scaled by
  2, for the circle geometry (which uses `Math.sqrt`).  For the mask loops
  the source iterates a float variable `x` started at
  `cx - Math.sqrt(radius*radius - (y-cy)*(y-cy))`; writes and reads at a
  non-integer `x` address no element of a JS typed array, and when the
  square-root argument is negative the bound is `NaN`, so the loop body
  never runs.  These JS semantics are reflected exactly below.
* All geometry is scaled by 2 to stay in integers: with `cx = w/2`,
  `cy = h/2`, `radius = min w h / 2`, the quantity
  `radius^2 - (y-cy)^2` equals `rowD w h y / 4` where
  `rowD w h y = (min w h)^2 - (2*y - h)^2`.
-/

namespace Badge

/-- Source constant `RGBA_CHANNELS = 4` (src/index.ts line 6). -/
def RGBA_CHANNELS : ℕ := 4

/-- Source constant `ALPHA_OFFSET = 3` (src/index.ts line 5). -/
def ALPHA_OFFSET : ℕ := 3

/-- Function `rgbToHsl` (src/index.ts lines 36–56), over exact rationals.
Normalizes the channels by 255, takes `max`/`min`, sets
`l = (max+min)/2`; when `max ≠ min` computes saturation by the piecewise
formula on lightness and hue by the 60°-sector formula keyed on which
channel is maximal (`switch (max)` tries `case r` first, then `case g`,
else `case b`), with the `g < b ? 6 : 0` offset in the red case. -/
def rgbToHsl (r g b : ℚ) : ℚ × ℚ × ℚ :=
  let r := r / 255
  let g := g / 255
  let b := b / 255
  let mx := max r (max g b)
  let mn := min r (min g b)
  let l := (mx + mn) / 2
  if mx = mn then (0, 0, l)
  else
    let d := mx - mn
    let s := if l > 1/2 then d / (2 - mx - mn) else d / (mx + mn)
    let h :=
      (if mx = r then (g - b) / d + (if g < b then 6 else 0)
       else if mx = g then (b - r) / d + 2
       else (r - g) / d + 4) * 60
    (h, s, l)

/-- An RGB triplet, the shape of the `color` argument of `isHappyColorHSL`. -/
structure RGB where
  r : ℚ
  g : ℚ
  b : ℚ

/-- Source constant `happyHueRange.min = 50` (src/index.ts line 62). -/
def happyHueMin : ℚ := 50

/-- Source constant `happyHueRange.max = 220` (src/index.ts line 62). -/
def happyHueMax : ℚ := 220

/-- Source constant `minSaturation = 0.5` (src/index.ts line 63). -/
def minSaturation : ℚ := 1/2

/-- Source constant `minLightness = 0.6` (src/index.ts line 64). -/
def minLightness : ℚ := 3/5

/-- Source constant `weightHue = 0.7` (src/index.ts line 67). -/
def weightHue : ℚ := 7/10

/-- Source constant `weightSaturation = 0.2` (src/index.ts line 68). -/
def weightSaturation : ℚ := 2/10

/-- Source constant `weightLightness = 0.1` (src/index.ts line 69). -/
def weightLightness : ℚ := 1/10

/-- Source constant `threshold = 0.6` (src/index.ts line 72).
The JS constants are binary doubles; every comparison made with them in
`isHappyColorHSL` has the same outcome as with these exact rationals, since
no achievable score lies within a rounding error of the threshold. -/
def threshold : ℚ := 6/10

/-- Function `isHappyColorHSL` (src/index.ts lines 76–84): three binary scores
(hue in the happy range, saturation at least `minSaturation`, lightness at
least `minLightness`) weighted 0.7/0.2/0.1 against the 0.6 threshold. -/
def isHappyColorHSL (color : RGB) : Bool :=
  let hsl := rgbToHsl color.r color.g color.b
  let hueScore : ℚ := if happyHueMin ≤ hsl.1 ∧ hsl.1 ≤ happyHueMax then 1 else 0
  let saturationScore : ℚ := if minSaturation ≤ hsl.2.1 then 1 else 0
  let lightnessScore : ℚ := if minLightness ≤ hsl.2.2 then 1 else 0
  decide (threshold ≤ hueScore * weightHue + saturationScore * weightSaturation
      + lightnessScore * weightLightness)

/-- The scaled row discriminant: with `cx = w/2`, `cy = h/2`,
`radius = min w h / 2` as in `createCircularMask` and `checkIfCircular`
(src/index.ts lines 10–13 and 96–98), the source quantity
`radius*radius - (y-cy)*(y-cy)` equals `rowD w h y / 4`. -/
def rowD (w h : ℕ) (y : ℕ) : ℤ :=
  (min w h : ℤ) ^ 2 - (2 * (y : ℤ) - (h : ℤ)) ^ 2

/-- Returns `some s` exactly when `Math.sqrt(radius*radius - (y-cy)*(y-cy))` is the
exact half-integer `s/2` with `s ≡ w (mod 2)`, i.e. exactly when the loop
bounds `maxXLeft = cx - sqrt(...)` and `minXRight = cx + sqrt(...)` of
src/index.ts lines 16–17 and 102–104 are integers, namely `(w-s)/2` and
`(w+s)/2`.  Any such `s` satisfies `s^2 = rowD ≤ (min w h)^2`, so searching
`0..min w h` is exhaustive. -/
def rowRoot (w h y : ℕ) : Option ℕ :=
  (List.range (min w h + 1)).find? fun s =>
    decide ((s : ℤ) * (s : ℤ) = rowD w h y) && decide ((w + s) % 2 = 0)

/-- Alpha byte indices actually written by the scanline loop of
`createCircularMask` (src/index.ts lines 15–23) in row `y`.  The loop
variable `x` starts at the float `maxXLeft` and steps by 1 while
`x < minXRight`; a JS typed-array write at a non-integer index stores
nothing, and when `radius^2 - (y-cy)^2 < 0` both bounds are `NaN` so the
loop body never runs.  Hence bytes change exactly in rows whose bounds are
integers (`rowRoot = some s`), at integer columns `(w-s)/2 + k`,
`k < (w+s)/2 - (w-s)/2 = s`. -/
def rowAlphaIdxs (w h y : ℕ) : List ℕ :=
  match rowRoot w h y with
  | some s =>
      (List.range s).map fun k =>
        (y * w + ((w - s) / 2 + k)) * RGBA_CHANNELS + ALPHA_OFFSET
  | none => []

/-- All alpha byte indices written by the double loop of
`createCircularMask` (src/index.ts lines 15–23), row-major. -/
def maskWriteIdxs (w h : ℕ) : List ℕ :=
  (List.range h).flatMap fun y => rowAlphaIdxs w h y

/-- Function `createCircularMask` (src/index.ts lines 9–23): a zero-initialized
`width*height*4` byte buffer, with 255 stored at each alpha index the
scanline loop actually writes.  (The subsequent sharp PNG encode/decode of
lines 25–32 is an external identity round-trip on the raw buffer and is
not part of the pixel computation.) -/
def createCircularMask (w h : ℕ) : List ℕ :=
  (maskWriteIdxs w h).foldl (fun buf i => buf.set i 255)
    (List.replicate (w * h * RGBA_CHANNELS) 0)

/-- Function `createCircularMask` of src/unnamed/part_000 lines 9–25: per-pixel
distance test, setting alpha 255 at integer pixel `(x, y)` exactly when
`Math.sqrt(dx*dx + dy*dy) < radius` with `dx = x - cx`, `dy = y - cy`.
In exact arithmetic, scaled by 2:
`(2x - w)^2 + (2y - h)^2 < (min w h)^2`. -/
def Part000.createCircularMask (w h : ℕ) : List ℕ :=
  (List.range h).foldl
    (fun (buf : List ℕ) (y : ℕ) =>
      (List.range w).foldl
        (fun (b : List ℕ) (x : ℕ) =>
          if (2 * (x : ℤ) - (w : ℤ)) ^ 2 + (2 * (y : ℤ) - (h : ℤ)) ^ 2
              < (min w h : ℤ) ^ 2 then
            b.set ((y * w + x) * RGBA_CHANNELS + ALPHA_OFFSET) 255
          else b)
        buf)
    (List.replicate (w * h * RGBA_CHANNELS) 0)

/-- Integer values taken by the left-exterior loop variable of
`checkIfCircular` (src/index.ts lines 107–111): `x` runs over integers
from 0 while `x < maxXLeft = cx - sqrt(radius^2 - (y-cy)^2)`.  For integer
`x` and `rowD ≥ 0` this is `2x < w` and `rowD < (w - 2x)^2`; when
`rowD < 0` the bound is `NaN` and the loop never runs. -/
def leftScanXs (w h y : ℕ) : List ℕ :=
  (List.range w).filter fun x =>
    decide (0 ≤ rowD w h y) && decide (2 * x < w)
      && decide (rowD w h y < ((w : ℤ) - 2 * (x : ℤ)) ^ 2)

/-- Integer values taken by the right-exterior loop variable of
`checkIfCircular` (src/index.ts lines 112–116): `x` starts at the float
`minXRight` and steps by 1 while `x < width`.  When `minXRight` is not an
integer every read `rawImage[(y*width+x)*4+3]` has a non-integer index and
yields `undefined`, and `undefined > 50` is false, so only rows with
integer bounds (`rowRoot = some s`) contribute reads, at integer columns
`(w+s)/2 ≤ x < w`. -/
def rightScanXs (w h y : ℕ) : List ℕ :=
  match rowRoot w h y with
  | some s => (List.range w).filter fun x => decide ((w + s) / 2 ≤ x)
  | none => []

/-- All alpha byte indices effectively read by `checkIfCircular`
(src/index.ts lines 100–117), row-major, left segment before right. -/
def circPositions (w h : ℕ) : List ℕ :=
  (List.range h).flatMap fun y =>
    ((leftScanXs w h y).map fun x => (y * w + x) * RGBA_CHANNELS + ALPHA_OFFSET)
      ++ ((rightScanXs w h y).map fun x => (y * w + x) * RGBA_CHANNELS + ALPHA_OFFSET)

/-- One iteration of the exterior-pixel scan of `checkIfCircular`
(src/index.ts lines 108–110 and 113–115): the state is the (unmodified)
buffer plus whether the non-circular error has been thrown; the body only
reads `rawImage[idx] > 50`. -/
def circStep (st : List ℕ × Bool) (i : ℕ) : List ℕ × Bool :=
  (st.1, st.2 || decide (50 < st.1.getD i 0))

/-- The full scan of `checkIfCircular` (src/index.ts lines 93–118),
threading the buffer through every iteration. -/
def checkIfCircularRun (img : List ℕ) (w h : ℕ) : List ℕ × Bool :=
  (circPositions w h).foldl circStep (img, false)

/-- Function `checkIfCircular` (src/index.ts lines 93–118) as a predicate:
`true` iff the function throws the non-circular error.  (The sharp
re-decode of line 94 is an identity round-trip on the already decoded
RGBA buffer.) -/
def checkIfCircular (img : List ℕ) (w h : ℕ) : Bool :=
  (checkIfCircularRun img w h).2

/-- Error message of src/index.ts line 123. -/
def oversizeMsg : String := "Image dimensions exceed 512x512 pixels."

/-- Error message of src/index.ts lines 109 and 114. -/
def nonCircularMsg : String := "Image has non-transparent pixels outside the circle."

/-- Error message of src/index.ts line 131. -/
def notHappyMsg : String := "Image does not convey a happy feeling."

/-- Success message of src/index.ts line 134. -/
def validMsg : String := "Image is valid, circular, and conveys a happy feeling."

/-- Error message of src/index.ts line 161. -/
def wrongFormatMsg : String := "Image format is not PNG."

/-- Error message of src/index.ts line 147. -/
def fileMissingMsg : String := "File does not exist."

/-- Error message of src/index.ts line 156. -/
def metadataMsg : String := "Failed to read image metadata."

/-- Success message of src/index.ts line 172. -/
def formatDoneMsg : String := "Image is now circular in the output.png file!"

/-- Fixed output path of src/index.ts line 171. -/
def outputFileName : String := "output.png"

/-- Top-level error line of src/index.ts line 175. -/
def failLine (e : String) : String := "Validation failed: " ++ e

/-- Function `checkImage` (src/index.ts lines 120–135): dimension check, then
circularity check, then mood check, each throwing its own error; on
success it logs the confirmation.  The dominant color handed to
`detectHappiness`/`isHappyColorHSL` is computed by the external sharp
statistics facility, so it enters the model as the argument `dominant`. -/
def checkImage (w h : ℕ) (img : List ℕ) (dominant : RGB) : Except String String :=
  if 512 < w ∨ 512 < h then Except.error oversizeMsg
  else if checkIfCircular img w h then Except.error nonCircularMsg
  else if isHappyColorHSL dominant = false then Except.error notHappyMsg
  else Except.ok validMsg

/-- The `--check` branch of `program.action` (src/index.ts lines 159–163):
format check first, then `checkImage`. -/
def checkPath (fmt : String) (w h : ℕ) (img : List ℕ) (dominant : RGB) :
    Except String String :=
  if fmt ≠ "png" then Except.error wrongFormatMsg
  else checkImage w h img dominant

/-- Observable effects of one CLI invocation: files written, stdout lines,
stderr lines. -/
structure ActionResult where
  writtenFiles : List String
  stdoutLines : List String
  stderrLines : List String

/-- Model of `program.action` (src/index.ts lines 144–177).  The `try/catch` turns
any thrown error into a single `Validation failed: ...` stderr line.  The
format branch is modelled by its effects: it writes `output.png` and logs
the completion message; its pixel content flows through the external sharp
compositing call and is not needed by the claims below. -/
def runAction (check fileExists metadataOk : Bool) (fmt : String)
    (w h : ℕ) (img : List ℕ) (dominant : RGB) : ActionResult :=
  if fileExists = false then ⟨[], [], [failLine fileMissingMsg]⟩
  else if metadataOk = false then ⟨[], [], [failLine metadataMsg]⟩
  else if check then
    match checkPath fmt w h img dominant with
    | Except.ok m => ⟨[], [m], []⟩
    | Except.error e => ⟨[], [], [failLine e]⟩
  else ⟨[outputFileName], [formatDoneMsg], []⟩

/-- Concrete 2×4 RGBA buffer: alpha 255 at pixel `(0, 0)`, all other
bytes 0. -/
def imgC2 : List ℕ := [0, 0, 0, 255] ++ List.replicate 28 0

end Badge

namespace Badge

/-- Helper: the exterior scan of `checkIfCircular` threads the buffer
through unchanged. -/
theorem foldl_circStep_fst (l : List ℕ) (img : List ℕ) (b : Bool) :
    (l.foldl circStep (img, b)).1 = img := by
  induction l generalizing b with
  | nil => rfl
  | cons i t ih => exact ih _

/-- Helper: a byte index of pixel `(x, y)` with `y < h` and `x < w` lies
inside the `w*h*4`-byte buffer. -/
theorem idx_lt (w h y x : ℕ) (hy : y < h) (hx : x < w) :
    (y * w + x) * RGBA_CHANNELS + ALPHA_OFFSET < w * h * RGBA_CHANNELS := by
  show (y * w + x) * 4 + 3 < w * h * 4
  have h1 : (y + 1) * w ≤ h * w := Nat.mul_le_mul_right w (Nat.succ_le_of_lt hy)
  nlinarith

/-- Claim C1 — refuted (code bug).  At `width = height = 4`, row `y = 1`,
the claim's bounds are `left = 2 - √3 ≈ 0.27` and `right = 2 + √3 ≈ 3.73`,
so integer column `x = 1` satisfies `left ≤ x < right` and the claim
requires alpha 255 at pixel `(1, 1)` (byte index `(1*4+1)*4+3 = 23`); the
code's mask holds 0 there, because its scan loop starts at the non-integer
float `maxXLeft = 2 - √3` and a JS typed-array write at a non-integer
index stores nothing, leaving the whole row blank. -/
theorem claim_C1 :
    ((4 : ℝ) / 2 - Real.sqrt ((min (4:ℝ) 4 / 2) * (min (4:ℝ) 4 / 2)
        - ((1:ℝ) - 4/2) * ((1:ℝ) - 4/2)) ≤ 1
      ∧ (1 : ℝ) < (4 : ℝ) / 2 + Real.sqrt ((min (4:ℝ) 4 / 2) * (min (4:ℝ) 4 / 2)
        - ((1:ℝ) - 4/2) * ((1:ℝ) - 4/2)))
    ∧ (createCircularMask 4 4).getD ((1 * 4 + 1) * RGBA_CHANNELS + ALPHA_OFFSET) 0 = 0 := by
  have harg : (min (4:ℝ) 4 / 2) * (min (4:ℝ) 4 / 2)
      - ((1:ℝ) - 4/2) * ((1:ℝ) - 4/2) = 3 := by norm_num
  have h1 : (1 : ℝ) ≤ Real.sqrt 3 := by
    nlinarith [Real.sq_sqrt (show (0:ℝ) ≤ 3 by norm_num), Real.sqrt_nonneg 3]
  refine ⟨⟨?_, ?_⟩, by decide⟩
  · rw [harg]; linarith
  · rw [harg]; linarith

/-- Claim C2 — refuted (code bug).  For a 2×4 image whose pixel `(0, 0)`
has alpha 255 (all other bytes 0), row 0 lies outside the circle's
vertical extent (`radius^2 - (0-cy)^2 < 0`, i.e. `rowD 2 4 0 < 0`), so
pixel `(0, 0)` is exterior and the claim requires the non-circular error;
`checkIfCircular` does not throw, because with a negative square-root
argument both loop bounds are `NaN` and neither loop of that row runs a
single iteration. -/
theorem claim_C2 :
    rowD 2 4 0 < 0
      ∧ 50 < imgC2.getD ((0 * 2 + 0) * RGBA_CHANNELS + ALPHA_OFFSET) 0
      ∧ checkIfCircular imgC2 2 4 = false := by
  exact ⟨by decide, by decide, by decide⟩

/-- Counterexample to claim C4 as stated.  Already at `width = height = 2`
the two generators disagree at byte `(1*2+0)*4+3 = 11`, the alpha of pixel
`(0, 1)`: that pixel lies at distance exactly `radius` from the center, so
the per-pixel strict test of part_000 leaves it 0, while the scanline loop
of src/index.ts starts at `maxXLeft = 0` (an integer here) and, being
inclusive on its left bound, writes 255 there. -/
theorem claim_C4_counterexample :
    (createCircularMask 2 2).getD ((1 * 2 + 0) * RGBA_CHANNELS + ALPHA_OFFSET) 0 = 255
      ∧ (Part000.createCircularMask 2 2).getD ((1 * 2 + 0) * RGBA_CHANNELS + ALPHA_OFFSET) 0 = 0
      ∧ createCircularMask 2 2 ≠ Part000.createCircularMask 2 2 := by
  exact ⟨by decide, by decide, by decide⟩

/-- Helper: a fold whose step preserves buffer length preserves it
overall. -/
theorem length_foldl (f : List ℕ → ℕ → List ℕ)
    (hf : ∀ (b : List ℕ) (i : ℕ), (f b i).length = b.length) :
    ∀ (l : List ℕ) (base : List ℕ), (l.foldl f base).length = base.length := by
  intro l
  induction l with
  | nil => intro base; rfl
  | cons i t ih => intro base; rw [List.foldl_cons, ih, hf]

/-- Claim C4, amended — the two mask generators produce buffers of the
same length `w*h*4` but not byte-identical content: besides the 2×2 left
boundary disagreement of `claim_C4_counterexample`, at `width = height = 4`
the scanline generator leaves row 1 entirely blank (its loop starts at the
non-integer `2 - √3`) while the per-pixel generator marks pixel `(1, 1)`
(byte 23) with alpha 255. -/
theorem claim_C4 :
    (∀ w h : ℕ, (createCircularMask w h).length = w * h * RGBA_CHANNELS
      ∧ (Part000.createCircularMask w h).length = w * h * RGBA_CHANNELS)
      ∧ (createCircularMask 4 4).getD ((1 * 4 + 1) * RGBA_CHANNELS + ALPHA_OFFSET) 0 = 0
      ∧ (Part000.createCircularMask 4 4).getD ((1 * 4 + 1) * RGBA_CHANNELS + ALPHA_OFFSET) 0 = 255 := by
  refine ⟨fun w h => ⟨?_, ?_⟩, by decide, by decide⟩
  · unfold createCircularMask
    rw [length_foldl _ (fun b i => List.length_set b i 255), List.length_replicate]
  · unfold Part000.createCircularMask
    rw [length_foldl _ ?outer, List.length_replicate]
    intro b y
    rw [length_foldl _ ?inner]
    intro b2 x
    split_ifs
    · exact List.length_set b2 _ 255
    · rfl

/-- Claim C3 — confirmed.  For any RGB triplet with channels in `[0, 255]`,
`isHappyColorHSL` returns `true` exactly when the hue of the HSL
conversion lies in the closed interval `[50, 220]`: with the hue rule the
score is at least `0.7 ≥ 0.6`, and without it at most
`0.2 + 0.1 = 0.3 < 0.6`. -/
theorem claim_C3 (r g b : ℕ) (hr : r ≤ 255) (hg : g ≤ 255) (hb : b ≤ 255) :
    isHappyColorHSL ⟨(r : ℚ), (g : ℚ), (b : ℚ)⟩ = true
      ↔ (happyHueMin ≤ (rgbToHsl r g b).1 ∧ (rgbToHsl r g b).1 ≤ happyHueMax) := by
  simp only [isHappyColorHSL]
  rw [decide_eq_true_eq]
  split_ifs with h1 h2 h3 <;>
    first
      | exact iff_of_true
          (by norm_num [threshold, weightHue, weightSaturation, weightLightness]) h1
      | exact iff_of_false
          (by norm_num [threshold, weightHue, weightSaturation, weightLightness]) h1

/-- Witness for `claim_C3`: the green triplet `(0, 150, 0)`. -/
theorem claim_C3_witness :
    isHappyColorHSL ⟨((0:ℕ) : ℚ), ((150:ℕ) : ℚ), ((0:ℕ) : ℚ)⟩ = true
      ↔ (happyHueMin ≤ (rgbToHsl ((0:ℕ):ℚ) ((150:ℕ):ℚ) ((0:ℕ):ℚ)).1
          ∧ (rgbToHsl ((0:ℕ):ℚ) ((150:ℕ):ℚ) ((0:ℕ):ℚ)).1 ≤ happyHueMax) :=
  claim_C3 0 150 0 (by decide) (by decide) (by decide)

/-- Claim C6 — confirmed.  `checkImage` fails with the oversize error
exactly when `width > 512` or `height > 512` — independently of the image
buffer and dominant color, so an oversize failure happens before the
circularity and mood checks can influence the outcome, and a 512×512
image is never rejected for its dimensions. -/
theorem claim_C6 (w h : ℕ) (img : List ℕ) (dominant : RGB) :
    checkImage w h img dominant = Except.error oversizeMsg ↔ (512 < w ∨ 512 < h) := by
  unfold checkImage
  split_ifs with h1 h2 h3
  · simp [h1]
  · constructor
    · intro he; injection he with hm; exact absurd hm (by decide)
    · intro hd; exact absurd hd h1
  · constructor
    · intro he; injection he with hm; exact absurd hm (by decide)
    · intro hd; exact absurd hd h1
  · constructor
    · intro he; simp at he
    · intro hd; exact absurd hd h1

/-- Claim C7 — confirmed.  The `--check` pipeline evaluates format,
dimension, circularity and mood in that fixed order and short-circuits:
each failing stage determines the result (with its own distinct message)
for every value of the later stages, all four messages are pairwise
distinct, and when all stages pass the single confirmation message is
returned. -/
theorem claim_C7 :
    (∀ (fmt : String) (w h : ℕ) (img : List ℕ) (dominant : RGB), fmt ≠ "png" →
        checkPath fmt w h img dominant = Except.error wrongFormatMsg)
      ∧ (∀ (w h : ℕ) (img : List ℕ) (dominant : RGB), (512 < w ∨ 512 < h) →
        checkPath "png" w h img dominant = Except.error oversizeMsg)
      ∧ (∀ (w h : ℕ) (img : List ℕ) (dominant : RGB), w ≤ 512 → h ≤ 512 →
        checkIfCircular img w h = true →
        checkPath "png" w h img dominant = Except.error nonCircularMsg)
      ∧ (∀ (w h : ℕ) (img : List ℕ) (dominant : RGB), w ≤ 512 → h ≤ 512 →
        checkIfCircular img w h = false → isHappyColorHSL dominant = false →
        checkPath "png" w h img dominant = Except.error notHappyMsg)
      ∧ (∀ (w h : ℕ) (img : List ℕ) (dominant : RGB), w ≤ 512 → h ≤ 512 →
        checkIfCircular img w h = false → isHappyColorHSL dominant = true →
        checkPath "png" w h img dominant = Except.ok validMsg)
      ∧ (wrongFormatMsg ≠ oversizeMsg ∧ wrongFormatMsg ≠ nonCircularMsg
        ∧ wrongFormatMsg ≠ notHappyMsg ∧ oversizeMsg ≠ nonCircularMsg
        ∧ oversizeMsg ≠ notHappyMsg ∧ nonCircularMsg ≠ notHappyMsg) := by
  refine ⟨?_, ?_, ?_, ?_, ?_, by decide⟩
  · intro fmt w h img dominant hfmt
    simp [checkPath, hfmt]
  · intro w h img dominant hd
    simp [checkPath, checkImage, hd]
  · intro w h img dominant hw hh hc
    have hd : ¬(512 < w ∨ 512 < h) := by omega
    simp [checkPath, checkImage, hd, hc]
  · intro w h img dominant hw hh hc hm
    have hd : ¬(512 < w ∨ 512 < h) := by omega
    simp [checkPath, checkImage, hd, hc, hm]
  · intro w h img dominant hw hh hc hm
    have hd : ¬(512 < w ∨ 512 < h) := by omega
    simp [checkPath, checkImage, hd, hc, hm]

/-- Witness for `claim_C7`: a JPEG input fails the format stage. -/
theorem claim_C7_witness :
    checkPath "jpeg" 1 1 [] ⟨0, 0, 0⟩ = Except.error wrongFormatMsg :=
  claim_C7.1 "jpeg" 1 1 [] ⟨0, 0, 0⟩ (by decide)

/-- Helper: a quotient of a number in `[-d, d]` by `d > 0` lies in
`[-1, 1]`. -/
theorem div_mem_Icc {a d : ℚ} (hd : 0 < d) (h1 : -d ≤ a) (h2 : a ≤ d) :
    -1 ≤ a / d ∧ a / d ≤ 1 := by
  constructor
  · rw [le_div_iff₀ hd]; linarith
  · rw [div_le_one hd]; exact h2

/-- Claim C8 — confirmed.  For integer channels in `[0, 255]`, `rgbToHsl`
returns a hue in `[0, 360)` and saturation and lightness in `[0, 1]`;
when `max = min` it returns `(0, 0, (max+min)/2)`; and the additive sector
offsets already make every hue non-negative, so no `+360` wrap is
needed. -/
theorem claim_C8 (r g b : ℕ) (hr : r ≤ 255) (hg : g ≤ 255) (hb : b ≤ 255)
    (hh hs hl : ℚ) (he : rgbToHsl r g b = (hh, hs, hl)) :
    (0 ≤ hh ∧ hh < 360) ∧ (0 ≤ hs ∧ hs ≤ 1) ∧ (0 ≤ hl ∧ hl ≤ 1)
      ∧ (max ((r:ℚ)/255) (max ((g:ℚ)/255) ((b:ℚ)/255))
            = min ((r:ℚ)/255) (min ((g:ℚ)/255) ((b:ℚ)/255)) →
          hh = 0 ∧ hs = 0
            ∧ hl = (max ((r:ℚ)/255) (max ((g:ℚ)/255) ((b:ℚ)/255))
                + min ((r:ℚ)/255) (min ((g:ℚ)/255) ((b:ℚ)/255))) / 2) := by
  have h0r : (0:ℚ) ≤ (r:ℚ)/255 := by positivity
  have h0g : (0:ℚ) ≤ (g:ℚ)/255 := by positivity
  have h0b : (0:ℚ) ≤ (b:ℚ)/255 := by positivity
  have h1r : (r:ℚ)/255 ≤ 1 := by
    rw [div_le_one (by norm_num : (0:ℚ) < 255)]; exact_mod_cast hr
  have h1g : (g:ℚ)/255 ≤ 1 := by
    rw [div_le_one (by norm_num : (0:ℚ) < 255)]; exact_mod_cast hg
  have h1b : (b:ℚ)/255 ≤ 1 := by
    rw [div_le_one (by norm_num : (0:ℚ) < 255)]; exact_mod_cast hb
  simp only [rgbToHsl] at he
  set r' := (r:ℚ)/255 with hr'
  set g' := (g:ℚ)/255 with hg'
  set b' := (b:ℚ)/255 with hb'
  set mx := max r' (max g' b') with hmx
  set mn := min r' (min g' b') with hmn
  have hmx1 : mx ≤ 1 := max_le h1r (max_le h1g h1b)
  have hmn0 : 0 ≤ mn := le_min h0r (le_min h0g h0b)
  have hmnmx : mn ≤ mx := le_trans (min_le_left _ _) (le_max_left _ _)
  have hrlo : mn ≤ r' := min_le_left _ _
  have hrhi : r' ≤ mx := le_max_left _ _
  have hglo : mn ≤ g' := le_trans (min_le_right _ _) (min_le_left _ _)
  have hghi : g' ≤ mx := le_trans (le_max_left _ _) (le_max_right _ _)
  have hblo : mn ≤ b' := le_trans (min_le_right _ _) (min_le_right _ _)
  have hbhi : b' ≤ mx := le_trans (le_max_right _ _) (le_max_right _ _)
  by_cases heq : mx = mn
  · rw [if_pos heq] at he
    injection he with e1 e23
    injection e23 with e2 e3
    subst e1; subst e2; subst e3
    refine ⟨⟨le_refl _, by norm_num⟩, ⟨le_refl _, by norm_num⟩,
      ⟨by linarith, by linarith⟩, fun _ => ⟨rfl, rfl, rfl⟩⟩
  · rw [if_neg heq] at he
    injection he with e1 e23
    injection e23 with e2 e3
    have hd : 0 < mx - mn := by
      have : mn < mx := lt_of_le_of_ne hmnmx (fun hcon => heq hcon.symm)
      linarith
    refine ⟨?_, ?_, ⟨by linarith, by linarith⟩, fun hcon => absurd hcon heq⟩
    · -- hue bounds
      rw [← e1]
      have hq1 := div_mem_Icc hd (by linarith : -(mx - mn) ≤ g' - b')
        (by linarith : g' - b' ≤ mx - mn)
      have hq2 := div_mem_Icc hd (by linarith : -(mx - mn) ≤ b' - r')
        (by linarith : b' - r' ≤ mx - mn)
      have hq3 := div_mem_Icc hd (by linarith : -(mx - mn) ≤ r' - g')
        (by linarith : r' - g' ≤ mx - mn)
      split_ifs with hcr hgb hcg
      · have hqneg : (g' - b') / (mx - mn) < 0 :=
          div_neg_of_neg_of_pos (by linarith) hd
        have hexp : (((g' - b') / (mx - mn) + 6) * 60 : ℚ)
            = 60 * ((g' - b') / (mx - mn)) + 360 := by ring
        rw [hexp]
        constructor
        · linarith [hq1.1]
        · linarith [hqneg]
      · have hqpos : 0 ≤ (g' - b') / (mx - mn) :=
          div_nonneg (by linarith [le_of_not_lt hgb]) (le_of_lt hd)
        have hexp : (((g' - b') / (mx - mn) + 0) * 60 : ℚ)
            = 60 * ((g' - b') / (mx - mn)) := by ring
        rw [hexp]
        constructor
        · linarith [hqpos]
        · linarith [hq1.2]
      · have hexp : (((b' - r') / (mx - mn) + 2) * 60 : ℚ)
            = 60 * ((b' - r') / (mx - mn)) + 120 := by ring
        rw [hexp]
        constructor
        · linarith [hq2.1]
        · linarith [hq2.2]
      · have hexp : (((r' - g') / (mx - mn) + 4) * 60 : ℚ)
            = 60 * ((r' - g') / (mx - mn)) + 240 := by ring
        rw [hexp]
        constructor
        · linarith [hq3.1]
        · linarith [hq3.2]
    · -- saturation bounds
      rw [← e2]
      have hmnlt1 : mn < 1 := lt_of_lt_of_le (by linarith) hmx1
      split_ifs with hcase
      · have hden : (0:ℚ) < 2 - mx - mn := by linarith
        constructor
        · exact div_nonneg (by linarith) (le_of_lt hden)
        · rw [div_le_one hden]; linarith
      · have hden : (0:ℚ) < mx + mn := by linarith
        constructor
        · exact div_nonneg (by linarith) (le_of_lt hden)
        · rw [div_le_one hden]; linarith

/-- Witness for `claim_C8`: the triplet `(10, 20, 30)`, whose HSL image is
`(210, 1/2, 4/51)`. -/
theorem claim_C8_witness :
    ((0:ℚ) ≤ 210 ∧ (210:ℚ) < 360) ∧ ((0:ℚ) ≤ 1/2 ∧ (1/2:ℚ) ≤ 1)
      ∧ ((0:ℚ) ≤ 4/51 ∧ (4/51:ℚ) ≤ 1)
      ∧ (max (((10:ℕ):ℚ)/255) (max (((20:ℕ):ℚ)/255) (((30:ℕ):ℚ)/255))
            = min (((10:ℕ):ℚ)/255) (min (((20:ℕ):ℚ)/255) (((30:ℕ):ℚ)/255)) →
          (210:ℚ) = 0 ∧ (1/2:ℚ) = 0
            ∧ (4/51:ℚ) = (max (((10:ℕ):ℚ)/255) (max (((20:ℕ):ℚ)/255) (((30:ℕ):ℚ)/255))
                + min (((10:ℕ):ℚ)/255) (min (((20:ℕ):ℚ)/255) (((30:ℕ):ℚ)/255))) / 2) :=
  claim_C8 10 20 30 (by decide) (by decide) (by decide) 210 (1/2) (4/51)
    (by norm_num [rgbToHsl, max_def, min_def])

/-- Claim C9 — confirmed.  The circularity scan threads the image buffer
through every iteration unchanged (its body only reads an alpha byte), and
the `--check` branch of the CLI action writes no file at all, whatever the
outcome. -/
theorem claim_C9 (w h : ℕ) (img : List ℕ) (fe mo : Bool) (fmt : String)
    (dominant : RGB) :
    (checkIfCircularRun img w h).1 = img
      ∧ (runAction true fe mo fmt w h img dominant).writtenFiles = [] := by
  constructor
  · exact foldl_circStep_fst _ _ _
  · unfold runAction
    split_ifs with h1 h2 h3
    · rfl
    · rfl
    · cases checkPath fmt w h img dominant <;> rfl
    · exact absurd rfl h3

/-- Claim C10, amended — every buffer index that the mask loop effectively
writes and every index the circularity scan effectively reads is in
bounds (`< width*height*4`). -/
theorem claim_C10 (w h i : ℕ) :
    (i ∈ maskWriteIdxs w h → i < w * h * RGBA_CHANNELS)
      ∧ (i ∈ circPositions w h → i < w * h * RGBA_CHANNELS) := by
  constructor
  · intro hi
    unfold maskWriteIdxs at hi
    rw [List.mem_flatMap] at hi
    obtain ⟨y, hy, hrow⟩ := hi
    rw [List.mem_range] at hy
    unfold rowAlphaIdxs at hrow
    cases hr : rowRoot w h y with
    | none => rw [hr] at hrow; simp at hrow
    | some s =>
        rw [hr] at hrow
        rw [List.mem_map] at hrow
        obtain ⟨k, hk, rfl⟩ := hrow
        rw [List.mem_range] at hk
        have hs : s ≤ min w h := by
          have hmem := List.mem_of_find?_eq_some hr
          rw [List.mem_range] at hmem
          omega
        have hsw : s ≤ w := le_trans hs (min_le_left _ _)
        have hx : (w - s) / 2 + k < w := by omega
        exact idx_lt w h y _ hy hx
  · intro hi
    unfold circPositions at hi
    rw [List.mem_flatMap] at hi
    obtain ⟨y, hy, hm⟩ := hi
    rw [List.mem_range] at hy
    rw [List.mem_append] at hm
    cases hm with
    | inl hl =>
        rw [List.mem_map] at hl
        obtain ⟨x, hx, rfl⟩ := hl
        have hxw : x < w := by
          have := List.mem_of_mem_filter hx
          rwa [List.mem_range] at this
        exact idx_lt w h y x hy hxw
    | inr hrr =>
        rw [List.mem_map] at hrr
        obtain ⟨x, hx, rfl⟩ := hrr
        unfold rightScanXs at hx
        cases hr : rowRoot w h y with
        | none => rw [hr] at hx; simp at hx
        | some s =>
            rw [hr] at hx
            have hxw : x < w := by
              have := List.mem_of_mem_filter hx
              rwa [List.mem_range] at this
            exact idx_lt w h y x hy hxw

/-- Witness for `claim_C10`: byte 11 (alpha of pixel `(0, 1)`) is written
by the 2×2 mask loop and is inside the 16-byte buffer. -/
theorem claim_C10_witness : (11 : ℕ) < 2 * 2 * RGBA_CHANNELS :=
  (claim_C10 2 2 11).1 (by decide)

/-- Claim C10, counterexample for the claim as stated.  The mask loop
variable at `width = height = 4`, row `y = 1`, is initialized to
`cx - sqrt(radius^2 - (y-cy)^2) = 2 - √3`, which is not an integer (the
row has no integer bounds, `rowRoot 4 4 1 = none`), so the loop variable
does not "only ever take integer in-bounds values". -/
theorem claim_C10_counterexample :
    rowRoot 4 4 1 = none
      ∧ ¬ ∃ n : ℤ, (4 : ℝ) / 2 - Real.sqrt ((min (4:ℝ) 4 / 2) * (min (4:ℝ) 4 / 2)
          - ((1:ℝ) - 4/2) * ((1:ℝ) - 4/2)) = (n : ℝ) := by
  constructor
  · decide
  · rintro ⟨n, hn⟩
    have harg : (min (4:ℝ) 4 / 2) * (min (4:ℝ) 4 / 2)
        - ((1:ℝ) - 4/2) * ((1:ℝ) - 4/2) = 3 := by norm_num
    rw [harg] at hn
    have h3 : Irrational (Real.sqrt 3) := by
      have hp := (Nat.prime_three).irrational_sqrt
      have hcast : ((3:ℕ) : ℝ) = 3 := by norm_num
      rwa [hcast] at hp
    have hirr : Irrational (((2:ℤ) : ℝ) - Real.sqrt 3) := h3.int_sub 2
    apply hirr.ne_int n
    push_cast
    linarith

end Badge
